import Mathlib

/-!
Shallow embedding of the token lifecycle manager of the ApiAutoTest repository
(`core/token_handler.py` and `config/handle_token_config.py`), together with
theorems settling the specification claims about it.

Modelling conventions:
* Python wall-clock timestamps (`time.time()`) are `Int` values passed
  explicitly as a `now` argument.
* Python exceptions are values of `PyErr`; fallible code returns `Except PyErr`.
* Python attribute lookup on a name that neither the class nor `__init__`
  defines is modelled by a constant of type `Option Empty` equal to `none`:
  the `some` branch of a match on it is uninhabited and the `none` branch
  raises `AttributeError`, exactly as CPython does.
* `functools.lru_cache` on a zero-argument method is keyed on `self` alone,
  so it is modelled by one memo slot stored in the object's state.
-/

deriving instance DecidableEq for Except

/-- Python exception values that the token handler can raise or catch. -/
inductive PyErr where
  | attributeError (msg : String)
  | notImplementedError
  | valueError (msg : String)
  | clientError (msg : String)
  | timeoutError
deriving DecidableEq, Repr

/-- The failure kind that `_handle_error` logs for a caught exception. -/
inductive FailureKind where
  | network
  | malformed
  | unknown
deriving DecidableEq, Repr

/-- The configuration dataclass `HandleTokenConfig` with exactly the fields its
`attr.ib` declarations define (defaults below in `handle_token_config`). -/
structure HandleTokenConfig where
  login_url : String
  refresh_url : String
  username : String
  password : String
  default_token : String
  token_keyword : String
  pool_size : Nat
  request_timeout : Nat
  refresh_token_check_interval : Nat
  expiry_time : Int
  min_time_between_refreshes : Int
  max_concurrent_refreshes : Nat
  refresh_failure_attempts_threshold : Nat
  auto_switch_backup_on_failure : Bool
  retry_delay_multiplier : Nat
  thread_pool_size : Nat
  general_request_retry_attempts : Nat
  token_headers : Option (List (String × String))
  token_cache_cleanup_interval : Nat
deriving DecidableEq, Repr

/-- The module-level `handle_token_config` instance produced by `load_config`
when no `handle_token_config.json` file is readable: all defaults. -/
def handle_token_config : HandleTokenConfig :=
  { login_url := "default_login_url"
    refresh_url := "default_refresh_url"
    username := "default_username"
    password := "default_password"
    default_token := ""
    token_keyword := "token"
    pool_size := 5
    request_timeout := 3
    refresh_token_check_interval := 10
    expiry_time := 7200
    min_time_between_refreshes := 300
    max_concurrent_refreshes := 5
    refresh_failure_attempts_threshold := 10
    auto_switch_backup_on_failure := false
    retry_delay_multiplier := 2
    thread_pool_size := 10
    general_request_retry_attempts := 2
    token_headers := none
    token_cache_cleanup_interval := 3600 }

/-- `HandleTokenConfig` declares no `backup_token` attribute, yet
`token_handler.py` reads `handle_token_config.backup_token`; the lookup can
only raise `AttributeError`. -/
def HandleTokenConfig.backup_token? : Option Empty := none

/-- `HandleTokenConfig` declares no `max_retry` attribute, yet
`TokenFetcherPool.__init__` reads `handle_token_config.max_retry`. -/
def HandleTokenConfig.max_retry? : Option Empty := none

/-- `HandleTokenConfig` declares no `retry_delay` attribute, yet
`TokenFetcherPool._async_refresh_token` reads `handle_token_config.retry_delay`. -/
def HandleTokenConfig.retry_delay? : Option Empty := none

/-! SHA-256, as computed by `hashlib.sha256(data).hexdigest()` in
`DefaultTokenProvider.generate_signature`.  Bytes are `Nat` values below 256
and 32-bit words are `Nat` values reduced modulo `2 ^ 32`. -/

/-- Reduce to a 32-bit word. -/
def w32 (x : Nat) : Nat := x % 4294967296

/-- Right-rotation of a 32-bit word. -/
def rotr32 (n x : Nat) : Nat := w32 ((x >>> n) ||| (x <<< (32 - n)))

/-- SHA-256 big sigma 0. -/
def sumSig0 (x : Nat) : Nat := (rotr32 2 x) ^^^ (rotr32 13 x) ^^^ (rotr32 22 x)

/-- SHA-256 big sigma 1. -/
def sumSig1 (x : Nat) : Nat := (rotr32 6 x) ^^^ (rotr32 11 x) ^^^ (rotr32 25 x)

/-- SHA-256 small sigma 0. -/
def schedSig0 (x : Nat) : Nat := (rotr32 7 x) ^^^ (rotr32 18 x) ^^^ (x >>> 3)

/-- SHA-256 small sigma 1. -/
def schedSig1 (x : Nat) : Nat := (rotr32 17 x) ^^^ (rotr32 19 x) ^^^ (x >>> 10)

/-- SHA-256 choice function (the complement is xor with the all-ones word). -/
def chF (x y z : Nat) : Nat := (x &&& y) ^^^ ((x ^^^ 4294967295) &&& z)

/-- SHA-256 majority function. -/
def majF (x y z : Nat) : Nat := (x &&& y) ^^^ (x &&& z) ^^^ (y &&& z)

/-- The 64 SHA-256 round constants (FIPS 180-4, written in decimal). -/
def sha256K : List Nat :=
  [1116352408, 1899447441, 3049323471, 3921009573,
   961987163, 1508970993, 2453635748, 2870763221,
   3624381080, 310598401, 607225278, 1426881987,
   1925078388, 2162078206, 2614888103, 3248222580,
   3835390401, 4022224774, 264347078, 604807628,
   770255983, 1249150122, 1555081692, 1996064986,
   2554220882, 2821834349, 2952996808, 3210313671,
   3336571891, 3584528711, 113926993, 338241895,
   666307205, 773529912, 1294757372, 1396182291,
   1695183700, 1986661051, 2177026350, 2456956037,
   2730485921, 2820302411, 3259730800, 3345764771,
   3516065817, 3600352804, 4094571909, 275423344,
   430227734, 506948616, 659060556, 883997877,
   958139571, 1322822218, 1537002063, 1747873779,
   1955562222, 2024104815, 2227730452, 2361852424,
   2428436474, 2756734187, 3204031479, 3329325298]

/-- The initial SHA-256 hash state (FIPS 180-4, written in decimal). -/
def sha256H0 : List Nat :=
  [1779033703, 3144134277, 1013904242, 2773480762,
   1359893119, 2600822924, 528734635, 1541459225]

/-- Big-endian 8-byte encoding of a length in bits. -/
def beBytes8 (n : Nat) : List Nat :=
  [(n >>> 56) % 256, (n >>> 48) % 256, (n >>> 40) % 256, (n >>> 32) % 256,
   (n >>> 24) % 256, (n >>> 16) % 256, (n >>> 8) % 256, n % 256]

/-- SHA-256 message padding: a 0x80 byte, zeros to 56 mod 64, then the
64-bit big-endian bit length. -/
def sha256Pad (msg : List Nat) : List Nat :=
  msg ++ [0x80] ++ List.replicate ((55 + 64 - msg.length % 64) % 64) 0
      ++ beBytes8 (msg.length * 8)

/-- Group a padded byte stream into big-endian 32-bit words. -/
def bytesToWords : List Nat → List Nat
  | b0 :: b1 :: b2 :: b3 :: rest =>
      (((b0 * 256 + b1) * 256 + b2) * 256 + b3) :: bytesToWords rest
  | _ => []

/-- Split a word stream into 16-word chunks; the fuel argument (instantiated
with the stream length, an upper bound on the number of chunks) makes the
recursion structural so that proofs can evaluate it. -/
def chunk16F : Nat → List Nat → List (List Nat)
  | 0, _ => []
  | _, [] => []
  | fuel + 1, w :: ws => ((w :: ws).take 16) :: chunk16F fuel (ws.drop 15)

/-- Split a word stream into 16-word chunks. -/
def chunk16 (l : List Nat) : List (List Nat) := chunk16F l.length l

/-- Extend a 16-word chunk by `n` further schedule words. -/
def extendSchedule : Nat → List Nat → List Nat
  | 0, ws => ws
  | n + 1, ws =>
      let i := ws.length
      let wNew := w32 (ws.getD (i - 16) 0 + schedSig0 (ws.getD (i - 15) 0)
          + ws.getD (i - 7) 0 + schedSig1 (ws.getD (i - 2) 0))
      extendSchedule n (ws ++ [wNew])

/-- One SHA-256 compression round on an 8-word working state given a round
constant paired with a schedule word. -/
def sha256Round (h : List Nat) (kw : Nat × Nat) : List Nat :=
  match h with
  | [a, b, c, d, e, f, g, hh] =>
      let t1 := w32 (hh + sumSig1 e + chF e f g + kw.1 + kw.2)
      let t2 := w32 (sumSig0 a + majF a b c)
      [w32 (t1 + t2), a, b, c, w32 (d + t1), e, f, g]
  | other => other

/-- Compress one 16-word chunk into the running hash state. -/
def sha256Compress (hs : List Nat) (chunk : List Nat) : List Nat :=
  let ws := extendSchedule 48 chunk
  let hs' := (sha256K.zip ws).foldl sha256Round hs
  (hs.zip hs').map (fun p => w32 (p.1 + p.2))

/-- SHA-256 digest of a byte list, as a list of 32 bytes. -/
def sha256Bytes (msg : List Nat) : List Nat :=
  let chunks := chunk16 (bytesToWords (sha256Pad msg))
  let hs := chunks.foldl sha256Compress sha256H0
  hs.flatMap (fun wv => [(wv >>> 24) % 256, (wv >>> 16) % 256, (wv >>> 8) % 256, wv % 256])

/-- A nibble as a lowercase hexadecimal character. -/
def hexChar (n : Nat) : Char :=
  if n < 10 then Char.ofNat (48 + n) else Char.ofNat (87 + n)

/-- A byte as two lowercase hexadecimal characters. -/
def byteToHex (b : Nat) : List Char := [hexChar (b / 16), hexChar (b % 16)]

/-- Lowercase hexadecimal rendering of a byte list, as `hexdigest` returns. -/
def bytesToHexString (bs : List Nat) : String := String.mk (bs.flatMap byteToHex)

/-- `hashlib.sha256(data).hexdigest()` for a byte list. -/
def sha256hex (msg : List Nat) : String := bytesToHexString (sha256Bytes msg)

/-- UTF-8 encoding of one character, as `str.encode()` produces. -/
def utf8EncodeChar (c : Char) : List Nat :=
  let n := c.toNat
  if n < 0x80 then [n]
  else if n < 0x800 then
    [0xC0 ||| (n >>> 6), 0x80 ||| (n &&& 0x3F)]
  else if n < 0x10000 then
    [0xE0 ||| (n >>> 12), 0x80 ||| ((n >>> 6) &&& 0x3F), 0x80 ||| (n &&& 0x3F)]
  else
    [0xF0 ||| (n >>> 18), 0x80 ||| ((n >>> 12) &&& 0x3F),
     0x80 ||| ((n >>> 6) &&& 0x3F), 0x80 ||| (n &&& 0x3F)]

/-- UTF-8 encoding of a string, as `str.encode()` produces. -/
def utf8Encode (s : String) : List Nat := s.data.flatMap utf8EncodeChar

/-! The `DefaultTokenProvider` class. -/

/-- The mutable state a `DefaultTokenProvider` instance holds after
`__init__` (the lock and the thread-pool executor carry no modelled state).
`signature_memo` models the `functools.lru_cache` slot of
`generate_signature`, which is keyed on `self` alone. -/
structure DefaultTokenProviderState where
  _current_token : String
  _token_expiry_time : Int
  _last_refresh_timestamp : Int
  _refresh_failure_count : Nat
  signature_memo : Option String
deriving DecidableEq, Repr

/-- `DefaultTokenProvider.__init__`: token from the configuration's
`default_token`, expiry `now + expiry_time`, last refresh 0, failures 0. -/
def DefaultTokenProvider.init (cfg : HandleTokenConfig) (now : Int) :
    DefaultTokenProviderState :=
  { _current_token := cfg.default_token
    _token_expiry_time := now + cfg.expiry_time
    _last_refresh_timestamp := 0
    _refresh_failure_count := 0
    signature_memo := none }

/-- Neither `DefaultTokenProvider` nor its `__init__` ever defines a `config`
attribute, yet `TokenManager.__init__` reads `token_provider.config.backup_token`
and `TokenFetcherPool.__init__` reads `token_provider.config.pool_size`;
the lookup can only raise `AttributeError`. -/
def DefaultTokenProvider.config? : Option Empty := none

/-- `DefaultTokenProvider` inherits `is_token_expired` from the abstract
`TokenProvider` base class without overriding it, so calling it raises
`NotImplementedError` for every provider state. -/
def DefaultTokenProvider.is_token_expired (_st : DefaultTokenProviderState) :
    Except PyErr Bool := .error .notImplementedError

/-- `DefaultTokenProvider` inherits `refresh_token` from the abstract
`TokenProvider` base class without overriding it, so calling it raises
`NotImplementedError` for every provider state. -/
def DefaultTokenProvider.refresh_token (_st : DefaultTokenProviderState) :
    Except PyErr String := .error .notImplementedError

/-- `DefaultTokenProvider.generate_signature`: SHA-256 hex digest of the
encoded current token, under `functools.lru_cache` keyed on the instance. -/
def DefaultTokenProvider.generate_signature (st : DefaultTokenProviderState) :
    String × DefaultTokenProviderState :=
  match st.signature_memo with
  | some s => (s, st)
  | none =>
      let s := sha256hex (utf8Encode st._current_token)
      (s, { st with signature_memo := some s })

/-- `DefaultTokenProvider._should_refresh_token`: expired OR last refresh
longer than `min_time_between_refreshes` ago; the first disjunct calls
`self.is_token_expired()`, and Python's `or` propagates its exception. -/
def DefaultTokenProvider.should_refresh_token (cfg : HandleTokenConfig)
    (st : DefaultTokenProviderState) (now : Int) : Except PyErr Bool := do
  let expired ← DefaultTokenProvider.is_token_expired st
  pure (expired || decide (now - st._last_refresh_timestamp > cfg.min_time_between_refreshes))

/-- `DefaultTokenProvider._update_current_token`: new token, fresh expiry and
refresh timestamp, failure count reset to 0.  It does not touch the
`generate_signature` memo slot (the `lru_cache` is never invalidated). -/
def DefaultTokenProvider.update_current_token (cfg : HandleTokenConfig)
    (st : DefaultTokenProviderState) (now : Int) (new_token : String) :
    DefaultTokenProviderState :=
  { st with
    _current_token := new_token
    _token_expiry_time := now + cfg.expiry_time
    _last_refresh_timestamp := now
    _refresh_failure_count := 0 }

/-- `DefaultTokenProvider._handle_error`: the classification the method logs
(`aiohttp.ClientError` as a network failure, `ValueError` as a malformed
response, everything else as an unknown error type).  It only logs; it
mutates no provider state. -/
def DefaultTokenProvider.handle_error : PyErr → FailureKind
  | .clientError _ => .network
  | .valueError _ => .malformed
  | _ => .unknown

/-- What one evaluation of `_async_refresh_token`'s body does before the
method either finishes or re-invokes itself at its final line. -/
inductive RefreshAttemptOutcome where
  | returned (v : Option String)
  | recursed
  | raised (e : PyErr)
deriving DecidableEq, Repr

/-- Result of one evaluation of `_async_refresh_token`'s body: its outcome,
the provider state afterwards, how many network POSTs it issued, and the
failure kind `_handle_error` classified (if an exception was caught). -/
structure AttemptResult where
  outcome : RefreshAttemptOutcome
  st : DefaultTokenProviderState
  posts : Nat
  classified : Option FailureKind
deriving DecidableEq, Repr

/-- The `except` block of `_async_refresh_token` (lines 89-98): log the
classified failure, then, when the failure count has reached the threshold
and auto-switch is enabled, read `handle_token_config.backup_token` — an
attribute `HandleTokenConfig` does not define, so that read raises
`AttributeError`; otherwise fall through to `return await
self._async_refresh_token()`. -/
def DefaultTokenProvider.async_refresh_except_block (cfg : HandleTokenConfig)
    (st : DefaultTokenProviderState) (_now : Int) (e : PyErr) (posts : Nat) :
    AttemptResult :=
  let kind := DefaultTokenProvider.handle_error e
  if st._refresh_failure_count ≥ cfg.refresh_failure_attempts_threshold then
    if cfg.auto_switch_backup_on_failure then
      match HandleTokenConfig.backup_token? with
      | none => ⟨.raised (.attributeError "backup_token"), st, posts, some kind⟩
      | some ev => ev.elim
    else ⟨.recursed, st, posts, some kind⟩
  else ⟨.recursed, st, posts, some kind⟩

/-- Handling of a parsed refresh response (lines 78-98 of
`_async_refresh_token`): a body with an `error` key or without the configured
token keyword raises `ValueError` into the `except` block; otherwise the
token is updated under the lock and the new value returned.  The JSON object
is an association list; one POST has been issued by this point. -/
def DefaultTokenProvider.handle_refresh_response (cfg : HandleTokenConfig)
    (st : DefaultTokenProviderState) (now : Int)
    (response_json : List (String × String)) : AttemptResult :=
  if response_json.any (fun kv => kv.1 == "error")
      || !(response_json.any (fun kv => kv.1 == cfg.token_keyword)) then
    DefaultTokenProvider.async_refresh_except_block cfg st now
      (.valueError "refresh token failed") 1
  else
    let new_token := ((response_json.find? (fun kv => kv.1 == cfg.token_keyword)).map Prod.snd).getD ""
    ⟨.returned (some new_token),
      DefaultTokenProvider.update_current_token cfg st now new_token, 1, none⟩

/-- What the network would answer if the POST of `_async_refresh_token` were
issued; the response is external input to the embedding. -/
inductive HttpOutcome where
  | ok (json : List (String × String))
  | networkError (msg : String)
  | timeout
deriving DecidableEq, Repr

/-- One evaluation of the body of `DefaultTokenProvider._async_refresh_token`:
compute `_should_refresh_token` (whose `is_token_expired` call raises
`NotImplementedError`, caught by the `except` block); on a refresh, hash the
current token, POST, and handle the response; otherwise return the cached
token under the lock. -/
def DefaultTokenProvider.async_refresh_token_attempt (cfg : HandleTokenConfig)
    (st : DefaultTokenProviderState) (now : Int) (http : HttpOutcome) :
    AttemptResult :=
  match DefaultTokenProvider.should_refresh_token cfg st now with
  | .error e => DefaultTokenProvider.async_refresh_except_block cfg st now e 0
  | .ok needs =>
    if needs then
      let (_signature, st1) := DefaultTokenProvider.generate_signature st
      match http with
      | .ok json => DefaultTokenProvider.handle_refresh_response cfg st1 now json
      | .networkError m =>
          DefaultTokenProvider.async_refresh_except_block cfg st1 now (.clientError m) 1
      | .timeout =>
          DefaultTokenProvider.async_refresh_except_block cfg st1 now .timeoutError 1
    else ⟨.returned (some st._current_token), st, 0, none⟩

/-! The `TokenManager` class. -/

/-- The state a `TokenManager` would hold (its event loop, auto-refresh task
and update callback carry no modelled state; pool-built managers pass no
callback).  `get_token_memo` models the `functools.lru_cache` slot of
`get_token`, keyed on `self` alone; `invalid` models the attribute
`TokenFetcherPool._async_refresh_token` assigns on failure (no other code
ever reads it). -/
structure TokenManagerState where
  _cached_current_token : Option String
  _backup_token : String
  get_token_memo : Option (Option String)
  invalid : Bool
deriving DecidableEq, Repr

/-- `TokenManager.__init__`: caches the provider's current token when truthy,
then reads `self._token_provider.config.backup_token` — but
`DefaultTokenProvider` defines no `config` attribute, so construction always
raises `AttributeError` before the manager exists. -/
def TokenManager.init (prov : DefaultTokenProviderState) :
    Except PyErr TokenManagerState :=
  let _cached : Option String :=
    if prov._current_token == "" then none else some prov._current_token
  match DefaultTokenProvider.config? with
  | none => .error (.attributeError "config")
  | some ev => ev.elim

/-- `TokenManager.is_token_expired`: `time.time() > expiry if expiry else
True`, reading the provider's expiry field directly. -/
def TokenManager.is_token_expired (prov : DefaultTokenProviderState)
    (now : Int) : Bool :=
  if prov._token_expiry_time ≠ 0 then decide (now > prov._token_expiry_time) else true

/-- Result of a `TokenManager.get_token` call: the Python return value
(`none` is Python's `None`), the manager state afterwards, and how many
provider refresh calls were issued. -/
structure GetTokenResult where
  ret : Option String
  tm : TokenManagerState
  refresh_calls : Nat
deriving DecidableEq, Repr

/-- The body of `TokenManager.get_token` (without its `lru_cache`): when the
local cache is empty or the provider reports expiry — a call that raises
`NotImplementedError` out of the method when the cache is nonempty — try the
provider's refresh; on failure fall back to the manager's backup token when
truthy, else return the (unchanged, possibly `None`) cache. -/
def TokenManager.get_token_body (tm : TokenManagerState)
    (prov : DefaultTokenProviderState) : Except PyErr GetTokenResult := do
  let cond ←
    match tm._cached_current_token with
    | none => pure true
    | some _ => DefaultTokenProvider.is_token_expired prov
  if cond then
    match DefaultTokenProvider.refresh_token prov with
    | .ok t => pure ⟨some t, { tm with _cached_current_token := some t }, 1⟩
    | .error _ =>
        if tm._backup_token ≠ "" then
          pure ⟨some tm._backup_token,
            { tm with _cached_current_token := some tm._backup_token }, 1⟩
        else
          pure ⟨tm._cached_current_token, tm, 1⟩
  else
    pure ⟨tm._cached_current_token, tm, 0⟩

/-- `TokenManager.get_token` under its `functools.lru_cache`: once a call has
completed for an instance, every later call returns the memoized result
without re-entering the body (exceptions are not cached). -/
def TokenManager.get_token (tm : TokenManagerState)
    (prov : DefaultTokenProviderState) : Except PyErr GetTokenResult :=
  match tm.get_token_memo with
  | some r => .ok ⟨r, tm, 0⟩
  | none => do
      let res ← TokenManager.get_token_body tm prov
      pure { res with tm := { res.tm with get_token_memo := some res.ret } }

/-- `TokenManager.refresh_token`: delegates to the provider's `refresh_token`
(pool-built managers have no update callback to notify). -/
def TokenManager.refresh_token (prov : DefaultTokenProviderState) :
    Except PyErr String :=
  DefaultTokenProvider.refresh_token prov

/-! The `TokenFetcherPool` class. -/

/-- One pool entry: a manager together with the provider it wraps. -/
structure Fetcher where
  tm : TokenManagerState
  prov : DefaultTokenProviderState
deriving DecidableEq, Repr

/-- The observable state of the pool's `ThreadPoolExecutor`:
`_work_queue.qsize()` counts queued tasks a worker has not yet picked up;
tasks already running are not in the queue. -/
structure ExecutorState where
  work_queue_size : Nat
  in_flight : Nat
  max_workers : Nat
deriving DecidableEq, Repr

/-- The `max_workers` of the executor `TokenFetcherPool.__init__` creates:
`max(2, pool_size // 2)`. -/
def TokenFetcherPool.executor_max_workers (cfg : HandleTokenConfig) : Nat :=
  max 2 (cfg.pool_size / 2)

/-- The state a `TokenFetcherPool` would hold after `__init__`. -/
structure TokenFetcherPoolState where
  _token_fetchers : List Fetcher
  executor : ExecutorState
  _retry_count : Nat
  _max_retry : Nat
deriving DecidableEq, Repr

/-- `TokenFetcherPool.__init__`: builds a `DefaultTokenProvider`, then
evaluates `range(token_provider.config.pool_size)` — but
`DefaultTokenProvider` defines no `config` attribute, so construction always
raises `AttributeError` (and `handle_token_config.max_retry`, read later in
the same `__init__`, does not exist either). -/
def TokenFetcherPool.init (cfg : HandleTokenConfig) (now : Int) :
    Except PyErr TokenFetcherPoolState :=
  let _token_provider := DefaultTokenProvider.init cfg now
  match DefaultTokenProvider.config? with
  | none => .error (.attributeError "config")
  | some ev => ev.elim

/-- `TokenFetcherPool.get_token_fetcher`: linear scan returning the first
manager whose `is_token_expired()` is false, else `None`. -/
def TokenFetcherPool.get_token_fetcher (fetchers : List Fetcher) (now : Int) :
    Option Fetcher :=
  fetchers.find? (fun f => !TokenManager.is_token_expired f.prov now)

/-- `TokenFetcherPool._can_refresh_concurrently`: the executor's queue size is
strictly below twice the executor's `max_workers`. -/
def TokenFetcherPool.can_refresh_concurrently (ex : ExecutorState) : Bool :=
  ex.work_queue_size < ex.max_workers * 2

/-- Observable effect of one `TokenFetcherPool.refresh_token_concurrently`
cycle: how many per-member refresh tasks were launched and whether the
over-budget warning was logged. -/
structure ConcurrentRefreshOutcome where
  refreshes_launched : Nat
  warned : Bool
deriving DecidableEq, Repr

/-- `TokenFetcherPool.refresh_token_concurrently`: when admitted, one refresh
task per pool member is launched and awaited; otherwise nothing is launched
and a warning is logged. -/
def TokenFetcherPool.refresh_token_concurrently (ex : ExecutorState)
    (fetchers : List Fetcher) : ConcurrentRefreshOutcome :=
  if TokenFetcherPool.can_refresh_concurrently ex then ⟨fetchers.length, false⟩
  else ⟨0, true⟩

/-- Result of one `TokenFetcherPool._async_refresh_token(fetcher)` task: the
value returned (or the exception propagated), the fetcher afterwards, and the
pool's shared retry counter afterwards. -/
structure PoolRefreshTaskResult where
  ret : Except PyErr (Option String)
  fetcher : Fetcher
  retry_count : Nat
deriving DecidableEq, Repr

/-- `TokenFetcherPool._async_refresh_token`: try the fetcher's refresh; on
failure mark the fetcher invalid, then — when the pool-global retry counter
is below `max_retry` — evaluate `asyncio.sleep(handle_token_config.retry_delay)`,
whose attribute read raises `AttributeError` out of the task (so the counter
is never incremented and the second refresh call is never reached); with the
budget exhausted, return `None`. -/
def TokenFetcherPool.async_refresh_token (max_retry retry_count : Nat)
    (f : Fetcher) : PoolRefreshTaskResult :=
  match TokenManager.refresh_token f.prov with
  | .ok t => ⟨.ok (some t), f, retry_count⟩
  | .error _ =>
      let f' : Fetcher := { f with tm := { f.tm with invalid := true } }
      if retry_count < max_retry then
        match HandleTokenConfig.retry_delay? with
        | none => ⟨.error (.attributeError "retry_delay"), f', retry_count⟩
        | some ev => ev.elim
      else ⟨.ok none, f', retry_count⟩

/-- Marking a fetcher invalid, as `TokenFetcherPool._async_refresh_token`
does on failure. -/
def markFetcherInvalid (f : Fetcher) : Fetcher :=
  { f with tm := { f.tm with invalid := true } }

/-- Whether an attempt outcome is a normal return. -/
def RefreshAttemptOutcome.isReturned : RefreshAttemptOutcome → Bool
  | .returned _ => true
  | _ => false

/-- A provider state whose token is already hashed into the
`generate_signature` memo and then replaced through
`_update_current_token` — the code's own token-update path. -/
def c5StateAfterUpdate : DefaultTokenProviderState :=
  DefaultTokenProvider.update_current_token handle_token_config
    (DefaultTokenProvider.generate_signature ⟨"a", 100, 0, 0, none⟩).2 50 "b"

/-- The pool executor state with five queued tasks under the default
configuration (queue 5, nothing in flight, `max_workers = max 2 (5 / 2) = 2`). -/
def c4Executor : ExecutorState :=
  ⟨5, 0, TokenFetcherPool.executor_max_workers handle_token_config⟩

/-- A five-member pool (the default `pool_size`), three members expired at
time 100, sharing one provider value as `TokenFetcherPool.__init__` would. -/
def c4Fetchers : List Fetcher :=
  [⟨⟨some "t", "", none, false⟩, ⟨"t", 50, 0, 0, none⟩⟩,
   ⟨⟨some "t", "", none, false⟩, ⟨"t", 50, 0, 0, none⟩⟩,
   ⟨⟨some "t", "", none, false⟩, ⟨"t", 50, 0, 0, none⟩⟩,
   ⟨⟨some "t", "", none, false⟩, ⟨"t", 500, 0, 0, none⟩⟩,
   ⟨⟨some "t", "", none, false⟩, ⟨"t", 500, 0, 0, none⟩⟩]

/-- A pool member whose token expired at time 50. -/
def c8Expired : Fetcher := ⟨⟨some "tExp", "", none, false⟩, ⟨"tExp", 50, 0, 0, none⟩⟩

/-- A pool member whose token expires at time 200. -/
def c8Fresh : Fetcher := ⟨⟨some "tFresh", "", none, false⟩, ⟨"tFresh", 200, 0, 0, none⟩⟩

/-- A pool member with an unexpired token (expiry 500), not yet marked
invalid. -/
def c9Fetcher : Fetcher := ⟨⟨some "tok", "", none, false⟩, ⟨"tok", 500, 0, 0, none⟩⟩

/-- Behaviour shared by every path of the `except` block of
`_async_refresh_token`: the provider state is returned untouched, the POST
count passes through, and the block either falls through to the recursive
retry or raises the `AttributeError` from the missing `backup_token`
configuration attribute. -/
theorem async_refresh_except_block_spec (cfg : HandleTokenConfig)
    (st : DefaultTokenProviderState) (now : Int) (e : PyErr) (posts : Nat) :
    (DefaultTokenProvider.async_refresh_except_block cfg st now e posts).st = st
    ∧ (DefaultTokenProvider.async_refresh_except_block cfg st now e posts).posts = posts
    ∧ ((DefaultTokenProvider.async_refresh_except_block cfg st now e posts).outcome
          = .recursed
        ∨ (DefaultTokenProvider.async_refresh_except_block cfg st now e posts).outcome
          = .raised (.attributeError "backup_token")) := by
  unfold DefaultTokenProvider.async_refresh_except_block
  split
  · split
    · exact ⟨rfl, rfl, Or.inr rfl⟩
    · exact ⟨rfl, rfl, Or.inl rfl⟩
  · exact ⟨rfl, rfl, Or.inl rfl⟩

/-- C1: the claim says every refresh failure increments the provider's
consecutive failure count, and at the threshold (with auto-switch enabled and
a backup configured) the live token switches to the backup.  In the code the
`except` block of `_async_refresh_token` returns the provider state untouched
on every path: `_handle_error` only logs, nothing anywhere increments
`_refresh_failure_count` (it is only ever reset to 0), so the threshold
branch is unreachable — and the backup read would raise `AttributeError`
anyway.  This theorem evaluates the failure-handling code: the state after
handling any failure equals the state before, so the count is never
incremented and the token is never switched. -/
theorem refresh_failure_never_increments_count (cfg : HandleTokenConfig)
    (st : DefaultTokenProviderState) (now : Int) (e : PyErr) (posts : Nat) :
    (DefaultTokenProvider.async_refresh_except_block cfg st now e posts).st = st
    ∧ (DefaultTokenProvider.async_refresh_except_block cfg st now e posts).st._refresh_failure_count
        = st._refresh_failure_count := by
  have h := async_refresh_except_block_spec cfg st now e posts
  exact ⟨h.1, by rw [h.1]⟩

/-- C2: the claim says that with a valid (unexpired) token the refresh path
short-circuits under the min-time guard and returns the cached token without
a network POST.  In the code `DefaultTokenProvider` never overrides
`is_token_expired`, so `_should_refresh_token` raises `NotImplementedError`
on every call and `_async_refresh_token` never reaches either the
short-circuit return or the POST: every evaluation of its body issues zero
POSTs and ends in the `except` block (retrying or raising), never in a
normal return of the cached value. -/
theorem refresh_path_never_returns_token (cfg : HandleTokenConfig)
    (st : DefaultTokenProviderState) (now : Int) (http : HttpOutcome) :
    DefaultTokenProvider.should_refresh_token cfg st now = .error .notImplementedError
    ∧ (DefaultTokenProvider.async_refresh_token_attempt cfg st now http).posts = 0
    ∧ (DefaultTokenProvider.async_refresh_token_attempt cfg st now http).outcome.isReturned
        = false := by
  have hb : DefaultTokenProvider.async_refresh_token_attempt cfg st now http
      = DefaultTokenProvider.async_refresh_except_block cfg st now .notImplementedError 0 := rfl
  have h := async_refresh_except_block_spec cfg st now .notImplementedError 0
  refine ⟨rfl, by rw [hb]; exact h.2.1, ?_⟩
  rw [hb]
  rcases h.2.2 with h1 | h1 <;> rw [h1] <;> rfl

/-- C3: the claim says `TokenManager.get_token` is memoized only until the
cache is stale, so repeated calls after expiry trigger a new refresh.  In the
code `get_token` carries `functools.lru_cache` keyed on `self`: once an
instance holds a memoized result, every later call returns it with zero
provider refresh calls and no state change — even when the provider's token
is expired (second conjunct: the concrete provider with expiry 10 is expired
at time 1000). -/
theorem get_token_memoized_returns_first_result :
    (∀ (tm0 : TokenManagerState) (prov : DefaultTokenProviderState) (r : Option String),
        TokenManager.get_token { tm0 with get_token_memo := some r } prov
          = .ok ⟨r, { tm0 with get_token_memo := some r }, 0⟩)
    ∧ TokenManager.is_token_expired ⟨"t0", 10, 0, 0, none⟩ 1000 = true :=
  ⟨fun _ _ _ => rfl, rfl⟩

/-- C6: the claim says `get_token` callers either receive a valid token
string or an explicit failure, never silently an empty value — in particular
not with an empty cache, a failing provider refresh and no manager-level
backup.  In the code that exact situation returns Python `None` with no
exception: the provider refresh raises (`refresh_token` is never overridden),
the `except` block finds the backup token empty, and the unchanged `None`
cache is returned (and then memoized by `lru_cache`). -/
theorem get_token_returns_none_silently (prov : DefaultTokenProviderState) :
    TokenManager.get_token ⟨none, "", none, false⟩ prov
      = .ok ⟨none, ⟨none, "", some none, false⟩, 1⟩ := rfl

/-- C7: the claim says a refresh response carrying an `error` field is
classified as a malformed-response failure, the failure count increases by
exactly 1, and token, expiry and last-refresh timestamp are unchanged.
Evaluating the response-handling code of `_async_refresh_token` on the fresh
default provider and the response `{"error": "invalid"}`: the failure is
classified as malformed and the state — including `_refresh_failure_count`,
which stays 0 rather than becoming 1 — is completely unchanged. -/
theorem malformed_response_leaves_provider_unchanged :
    (DefaultTokenProvider.handle_refresh_response handle_token_config
        (DefaultTokenProvider.init handle_token_config 0) 5
        [("error", "invalid")]).classified = some .malformed
    ∧ (DefaultTokenProvider.handle_refresh_response handle_token_config
        (DefaultTokenProvider.init handle_token_config 0) 5
        [("error", "invalid")]).st = DefaultTokenProvider.init handle_token_config 0
    ∧ (DefaultTokenProvider.handle_refresh_response handle_token_config
        (DefaultTokenProvider.init handle_token_config 0) 5
        [("error", "invalid")]).st._refresh_failure_count = 0
    ∧ (DefaultTokenProvider.handle_refresh_response handle_token_config
        (DefaultTokenProvider.init handle_token_config 0) 5
        [("error", "invalid")]).outcome = .recursed :=
  ⟨rfl, rfl, rfl, rfl⟩

/-- C10: constructing `TokenManager` around any `DefaultTokenProvider` state
raises `AttributeError` (the `__init__` reads `provider.config.backup_token`
and no `config` attribute exists), and constructing `TokenFetcherPool` under
any configuration raises `AttributeError` the same way (it evaluates
`range(token_provider.config.pool_size)`); `HandleTokenConfig` moreover
defines no `max_retry` attribute, and `DefaultTokenProvider` no `config`. -/
theorem construction_always_raises_attribute_error :
    (∀ prov : DefaultTokenProviderState,
        TokenManager.init prov = .error (.attributeError "config"))
    ∧ (∀ (cfg : HandleTokenConfig) (now : Int),
        TokenFetcherPool.init cfg now = .error (.attributeError "config"))
    ∧ HandleTokenConfig.max_retry? = none
    ∧ DefaultTokenProvider.config? = none :=
  ⟨fun _ => rfl, fun _ _ => rfl, rfl, rfl⟩

/-- C4 counterexample: under the default configuration the executor holds
`max_workers = max 2 (5 / 2) = 2`, so with five queued tasks the claimed
budget `5 + 0 < 2 × max_concurrent_refreshes = 10` is met, yet
`refresh_token_concurrently` issues zero refreshes and logs the warning
(the code compares the queue against `2 × max_workers = 4`). -/
theorem refresh_budget_counterexample :
    c4Executor.work_queue_size + c4Executor.in_flight
        < 2 * handle_token_config.max_concurrent_refreshes
    ∧ TokenFetcherPool.refresh_token_concurrently c4Executor c4Fetchers
        = ⟨0, true⟩ :=
  ⟨by decide, rfl⟩

/-- C4 (amended): `refresh_token_concurrently` performs the per-member bulk
refresh exactly when the executor's pending queue size (in-flight work is not
counted) is strictly below `2 × max_workers` of the executor the pool
constructs, whose `max_workers` is `max 2 (pool_size // 2)` — not
`2 × max_concurrent_refreshes`; when over that budget, zero refresh calls are
issued and a warning is logged. -/
theorem refresh_token_concurrently_budget (ex : ExecutorState)
    (fetchers : List Fetcher) (cfg : HandleTokenConfig) :
    TokenFetcherPool.refresh_token_concurrently ex fetchers
      = (if ex.work_queue_size < ex.max_workers * 2 then ⟨fetchers.length, false⟩
         else ⟨0, true⟩)
    ∧ TokenFetcherPool.executor_max_workers cfg = max 2 (cfg.pool_size / 2) := by
  constructor
  · by_cases h : ex.work_queue_size < ex.max_workers * 2 <;>
      simp [TokenFetcherPool.refresh_token_concurrently,
        TokenFetcherPool.can_refresh_concurrently, h]
  · rfl

/-- C5 counterexample: hash the token `"a"` once, then replace the token with
`"b"` through the code's own `_update_current_token`; `generate_signature`
now returns the memoized digest of `"a"`, which is not the SHA-256 digest of
the current token `"b"` — the `lru_cache` is keyed on the provider instance,
not on the token value. -/
theorem generate_signature_stale_counterexample :
    c5StateAfterUpdate._current_token = "b"
    ∧ (DefaultTokenProvider.generate_signature c5StateAfterUpdate).1
        = sha256hex (utf8Encode "a")
    ∧ ((DefaultTokenProvider.generate_signature c5StateAfterUpdate).1
        == sha256hex (utf8Encode c5StateAfterUpdate._current_token)) = false := by
  refine ⟨rfl, rfl, ?_⟩
  decide

/-- C5 (amended): `generate_signature` returns the SHA-256 hex digest of the
token held at the instance's first call; the result is cached per provider
instance (`lru_cache` keyed on `self`), so a memoized value is returned
unchanged regardless of the current token, and `_update_current_token` never
clears the memo. -/
theorem generate_signature_per_instance_memo (st0 : DefaultTokenProviderState)
    (s : String) (cfg : HandleTokenConfig) (now : Int) (tok : String) :
    (DefaultTokenProvider.generate_signature { st0 with signature_memo := none }).1
        = sha256hex (utf8Encode st0._current_token)
    ∧ DefaultTokenProvider.generate_signature { st0 with signature_memo := some s }
        = (s, { st0 with signature_memo := some s })
    ∧ (DefaultTokenProvider.update_current_token cfg
        { st0 with signature_memo := some s } now tok).signature_memo = some s :=
  ⟨rfl, rfl, rfl⟩

/-- C8: `get_token_fetcher` returns the first manager in the pool's ordered
collection whose `is_token_expired()` is false, and returns `None` when every
manager is expired. -/
theorem get_token_fetcher_first_unexpired (fetchers : List Fetcher) (now : Int) :
    ((∀ f ∈ fetchers, TokenManager.is_token_expired f.prov now = true) →
        TokenFetcherPool.get_token_fetcher fetchers now = none)
    ∧ (∀ (pre : List Fetcher) (f : Fetcher) (post : List Fetcher),
        fetchers = pre ++ f :: post →
        (∀ g ∈ pre, TokenManager.is_token_expired g.prov now = true) →
        TokenManager.is_token_expired f.prov now = false →
        TokenFetcherPool.get_token_fetcher fetchers now = some f) := by
  constructor
  · intro h
    induction fetchers with
    | nil => rfl
    | cons a l ih =>
        have ha := h a (List.mem_cons_self a l)
        have hrest : TokenFetcherPool.get_token_fetcher l now = none :=
          ih (fun g hg => h g (List.mem_cons_of_mem a hg))
        unfold TokenFetcherPool.get_token_fetcher at hrest ⊢
        simp [List.find?_cons, ha, hrest]
  · intro pre f post hsplit hpre hf
    subst hsplit
    induction pre with
    | nil =>
        unfold TokenFetcherPool.get_token_fetcher
        simp [List.find?_cons, hf]
    | cons a l ih =>
        have ha := hpre a (List.mem_cons_self a l)
        have hrest := ih (fun g hg => hpre g (List.mem_cons_of_mem a hg))
        unfold TokenFetcherPool.get_token_fetcher at hrest ⊢
        simp only [List.cons_append, List.find?_cons, ha]
        simpa using hrest

/-- C8 witness: on the concrete two-member pool whose first member expired at
time 50 and whose second expires at time 200, the scan at time 100 returns
the second member. -/
theorem get_token_fetcher_first_unexpired_witness :
    TokenFetcherPool.get_token_fetcher [c8Expired, c8Fresh] 100 = some c8Fresh :=
  (get_token_fetcher_first_unexpired [c8Expired, c8Fresh] 100).2 [c8Expired] c8Fresh []
    rfl
    (by intro g hg
        rw [List.mem_singleton] at hg
        subst hg
        rfl)
    rfl

/-- C9 counterexample: run the pool's refresh task on a member with its retry
budget exhausted (`retry_count = max_retry = 0`): the task returns `None` and
marks the member invalid — yet the very next `get_token_fetcher` scan still
returns that member, because the scan never consults the `invalid` flag. -/
theorem exhausted_retry_fetcher_still_scanned :
    (TokenFetcherPool.async_refresh_token 0 0 c9Fetcher).ret = .ok none
    ∧ (TokenFetcherPool.async_refresh_token 0 0 c9Fetcher).fetcher.tm.invalid = true
    ∧ TokenFetcherPool.get_token_fetcher
          [(TokenFetcherPool.async_refresh_token 0 0 c9Fetcher).fetcher] 100
        = some (TokenFetcherPool.async_refresh_token 0 0 c9Fetcher).fetcher :=
  ⟨rfl, rfl, rfl⟩

/-- C9 (amended): a failed refresh task marks its manager invalid immediately
on the first failure (and every task fails, since the provider's
`refresh_token` raises); while the pool-global retry counter is below
`max_retry` the retry path propagates `AttributeError` out of the task
(`handle_token_config.retry_delay` does not exist), leaving the counter
unchanged, and with the budget exhausted the task returns `None`; the
`invalid` mark is never consulted by `get_token_fetcher`, whose scan result
is unaffected by marking every member invalid. -/
theorem pool_refresh_marks_invalid_and_scan_ignores_it
    (max_retry retry_count : Nat) (f : Fetcher) (fetchers : List Fetcher) (now : Int) :
    (TokenFetcherPool.async_refresh_token max_retry retry_count f).fetcher
        = markFetcherInvalid f
    ∧ (TokenFetcherPool.async_refresh_token max_retry retry_count f).ret
        = (if retry_count < max_retry then .error (.attributeError "retry_delay")
           else .ok none)
    ∧ (TokenFetcherPool.async_refresh_token max_retry retry_count f).retry_count
        = retry_count
    ∧ TokenFetcherPool.get_token_fetcher (fetchers.map markFetcherInvalid) now
        = (TokenFetcherPool.get_token_fetcher fetchers now).map markFetcherInvalid := by
  refine ⟨?_, ?_, ?_, ?_⟩
  · by_cases h : retry_count < max_retry <;>
      simp [TokenFetcherPool.async_refresh_token, TokenManager.refresh_token,
        DefaultTokenProvider.refresh_token, markFetcherInvalid,
        HandleTokenConfig.retry_delay?, h]
  · by_cases h : retry_count < max_retry <;>
      simp [TokenFetcherPool.async_refresh_token, TokenManager.refresh_token,
        DefaultTokenProvider.refresh_token, HandleTokenConfig.retry_delay?, h]
  · by_cases h : retry_count < max_retry <;>
      simp [TokenFetcherPool.async_refresh_token, TokenManager.refresh_token,
        DefaultTokenProvider.refresh_token, HandleTokenConfig.retry_delay?, h]
  · have hcomp : ((fun g : Fetcher => !TokenManager.is_token_expired g.prov now)
          ∘ markFetcherInvalid)
        = (fun g : Fetcher => !TokenManager.is_token_expired g.prov now) := rfl
    unfold TokenFetcherPool.get_token_fetcher
    rw [List.find?_map, hcomp]
